import Mathlib

/-!
Shallow embedding of src/contract.rs (Anchor program unified_stake_trading).

Modelling conventions:
- u64 / u16 / u128 values are Nat.  Unchecked Rust arithmetic on u64 wraps
  modulo 2^64 (release-profile semantics); it is written explicitly with
  wrap64 / sub64.  The casts written as-u16 / as-u64 in the source truncate
  modulo 2^16 / 2^64.  Every u128 intermediate in the source is wide enough
  for its operands, so u128 expressions are exact Nat arithmetic.
- i64 values are Int; the unchecked i64 addition in withdraw wraps into
  the interval from -2^63 to 2^63 - 1, written wrap64s.
- checked_add / checked_sub failures surface as ErrorCode.MathOverflow; an
  integer division whose divisor is zero surfaces as Failure.divisionByZero,
  a Rust runtime abort distinct from every enumerated ErrorCode.
- Each instruction is a pure function from its pre-state and inputs to
  Except Failure of a result record.  An error value models the atomic
  abort of the whole transaction: no state change, no effective transfer,
  and the stake position (if any) left open.  The ok value carries the new
  pool state, the created position (for stake), the computed amounts and
  the list of token transfers actually issued; for withdraw the ok result
  carries no position because the position account is closed on success.
- Account identities (Pubkey) are abstracted as Nat; the program only
  compares them for equality.  Anchor's init zero-fills a fresh account,
  so initialize_agent_pool starts from an all-zero pool record and assigns
  exactly the fields the handler assigns (fee_destination and
  emergency_mode keep their zero value: the handler never writes them).
-/

namespace UnifiedStakeTrading

abbrev Pubkey := Nat

/-- Modulus of u64 arithmetic, 2^64. -/
def U64_MOD : Nat := 18446744073709551616

/-- Modulus of u16 arithmetic, 2^16. -/
def U16_MOD : Nat := 65536

/-- 2^63, the magnitude bound of i64. -/
def I64_HALF : Int := 9223372036854775808

/-- 2^64 as an Int, for wrapping i64 arithmetic. -/
def I64_MOD : Int := 18446744073709551616

/-- Wrapping u64 value of a Nat expression (release-mode unchecked math). -/
def wrap64 (x : Nat) : Nat := x % U64_MOD

/-- Wrapping u64 subtraction a - b (operands assumed < 2^64). -/
def sub64 (a b : Nat) : Nat := (a + U64_MOD - b) % U64_MOD

/-- Wrapping i64 value of an Int expression (two's complement). -/
def wrap64s (x : Int) : Int := (x + I64_HALF) % I64_MOD - I64_HALF

/-- MIN_STAKE_SOL from the source: 1 SOL in lamports. -/
def MIN_STAKE_SOL : Nat := 1000000000

/-- UNSTAKE_FEE_BPS from the source: 10 percent on unstake profit. -/
def UNSTAKE_FEE_BPS : Nat := 1000

/-- STAKE_FEE_BPS from the source: 3 percent on initial stake. -/
def STAKE_FEE_BPS : Nat := 300

/-- MIN_STAKE_DURATION from the source: one hour, in seconds (i64). -/
def MIN_STAKE_DURATION : Int := 3600

/-- MIN_SHARE_BPS from the source: 0.1 percent minimum share. -/
def MIN_SHARE_BPS : Nat := 10

/-- MAX_TRADE_SIZE_BPS from the source: 20 percent max per trade. -/
def MAX_TRADE_SIZE_BPS : Nat := 2000

/-- DUST_THRESHOLD from the source: 1000 minor units. -/
def DUST_THRESHOLD : Nat := 1000

/-- The ErrorCode enum of the source, in source order. -/
inductive ErrorCode
  | Unauthorized
  | StakeTooSmall
  | RaydiumError
  | InvalidShare
  | TradeSizeTooLarge
  | PoolPaused
  | MathOverflow
  | ShareTooSmall
  | StakeDurationNotMet
  | DustAmount
  | EmergencyOnly
deriving DecidableEq, Repr

/-- Terminal outcome of a failed instruction: either one of the program's
enumerated error codes, or a runtime abort from an integer division by
zero (which is not an ErrorCode). -/
inductive Failure
  | code (e : ErrorCode)
  | divisionByZero
deriving DecidableEq, Repr

/-- The AgentPool account of the source (PoolState of the spec). -/
structure AgentPool where
  agent : Pubkey
  total_staked : Nat
  fee_destination : Pubkey
  vault : Pubkey
  paused : Bool
  total_shares_bps : Nat
  bump : Nat
  emergency_mode : Bool
deriving DecidableEq, Repr

/-- The StakePosition account of the source (Position of the spec). -/
structure StakePosition where
  owner : Pubkey
  agent_pool : Pubkey
  initial_stake : Nat
  share_bps : Nat
  stake_timestamp : Int
  bump : Nat
deriving DecidableEq, Repr

/-- Destination of an SPL token transfer issued by an instruction. -/
inductive TransferDest
  | toPoolVault
  | toFeeDestination
  | toOwner
deriving DecidableEq, Repr

/-- One token transfer issued by an instruction. -/
structure Transfer where
  dest : TransferDest
  amount : Nat
deriving DecidableEq, Repr

/-- An all-zero AgentPool record, as Anchor's init leaves a fresh account
before the handler runs. -/
def zeroedAgentPool : AgentPool :=
  { agent := 0, total_staked := 0, fee_destination := 0, vault := 0,
    paused := false, total_shares_bps := 0, bump := 0, emergency_mode := false }

/-- initialize_agent_pool from the source: assigns agent, total_staked = 0,
vault, paused = false, total_shares_bps = 0 and bump on the zero-filled
fresh account; fee_destination and emergency_mode are never written and
keep their zeroed value. -/
def initialize_agent_pool (agent vault : Pubkey) (bump : Nat) : AgentPool :=
  { zeroedAgentPool with
    agent := agent, total_staked := 0, vault := vault,
    paused := false, total_shares_bps := 0, bump := bump }

/-- Result of a successful stake instruction. -/
structure StakeResult where
  pool : AgentPool
  position : StakePosition
  fee : Nat
  stake_amount : Nat
  share_bps : Nat
  transfers : List Transfer
deriving DecidableEq, Repr

/-- The stake fee computed by the source: (amount * STAKE_FEE_BPS) / 10000
with the multiply done in unchecked u64 arithmetic. -/
def stakeFeeOf (amount : Nat) : Nat := wrap64 (amount * STAKE_FEE_BPS) / 10000

/-- The net stake amount computed by the source: amount - fee in u64. -/
def stakeAmountOf (amount : Nat) : Nat := sub64 amount (stakeFeeOf amount)

/-- The share_bps computation of stake (source lines 109-113): 10000 for an
empty pool, otherwise the u128 quotient of stake_amount * 10000 by the
u64 sum total_staked + stake_amount (the sum wraps in u64 before being
cast to u128), truncated back to u64.  A zero divisor is a runtime abort. -/
def stakeShare (pool : AgentPool) (stake_amount : Nat) : Except Failure Nat :=
  if pool.total_staked = 0 then Except.ok 10000
  else
    let denom := wrap64 (pool.total_staked + stake_amount)
    if denom = 0 then Except.error Failure.divisionByZero
    else Except.ok (wrap64 (stake_amount * 10000 / denom))

/-- The stake instruction (source lines 98-153). -/
def stake (pool : AgentPool) (amount : Nat) (user poolKey : Pubkey)
    (now : Int) (bump : Nat) : Except Failure StakeResult :=
  if amount < MIN_STAKE_SOL then Except.error (Failure.code ErrorCode.StakeTooSmall)
  else if pool.paused then Except.error (Failure.code ErrorCode.PoolPaused)
  else
    let stake_fee := stakeFeeOf amount
    let stake_amount := stakeAmountOf amount
    match stakeShare pool stake_amount with
    | Except.error e => Except.error e
    | Except.ok share_bps =>
      if share_bps < MIN_SHARE_BPS then Except.error (Failure.code ErrorCode.ShareTooSmall)
      else if 10000 < wrap64 (pool.total_shares_bps + share_bps) then
        Except.error (Failure.code ErrorCode.InvalidShare)
      else if U64_MOD ≤ pool.total_staked + stake_amount then
        Except.error (Failure.code ErrorCode.MathOverflow)
      else if U64_MOD ≤ pool.total_shares_bps + share_bps then
        Except.error (Failure.code ErrorCode.MathOverflow)
      else Except.ok
        { pool := { pool with
            total_staked := pool.total_staked + stake_amount,
            total_shares_bps := pool.total_shares_bps + share_bps },
          position :=
            { owner := user, agent_pool := poolKey, initial_stake := stake_amount,
              share_bps := share_bps, stake_timestamp := now, bump := bump },
          fee := stake_fee,
          stake_amount := stake_amount,
          share_bps := share_bps,
          transfers := [⟨TransferDest.toPoolVault, stake_amount⟩,
                        ⟨TransferDest.toFeeDestination, stake_fee⟩] }

/-- Result of a successful execute_trade instruction: the pool (unchanged
by this instruction) and the swap request delegated to the external
executor.  An external executor failure (RaydiumError) is outside the
state machine and not modelled. -/
structure TradeResult where
  pool : AgentPool
  amount_in : Nat
  min_amount_out : Nat
deriving DecidableEq, Repr

/-- The execute_trade instruction (source lines 155-188).  The trade-size
quotient is exact u128 arithmetic but is then truncated to u16 (the
as-u16 cast on source line 161) before the comparison against
MAX_TRADE_SIZE_BPS.  Division by a zero total_staked is a runtime abort. -/
def execute_trade (pool : AgentPool) (agent : Pubkey)
    (amount_in min_amount_out : Nat) : Except Failure TradeResult :=
  if pool.paused then Except.error (Failure.code ErrorCode.PoolPaused)
  else if pool.agent = agent then
    if pool.total_staked = 0 then Except.error Failure.divisionByZero
    else
      let trade_size_bps := (amount_in * 10000 / pool.total_staked) % U16_MOD
      if MAX_TRADE_SIZE_BPS < trade_size_bps then
        Except.error (Failure.code ErrorCode.TradeSizeTooLarge)
      else Except.ok { pool := pool, amount_in := amount_in, min_amount_out := min_amount_out }
  else Except.error (Failure.code ErrorCode.Unauthorized)

/-- Result of a successful withdraw instruction.  The position is closed
on success, so the result carries no position. -/
structure WithdrawResult where
  pool : AgentPool
  share_amount : Nat
  profit : Nat
  fee : Nat
  withdrawal_amount : Nat
  transfers : List Transfer
deriving DecidableEq, Repr

/-- The profit computation of withdraw (source lines 212-216): the excess
of share_amount over the recorded initial stake, zero when there is none. -/
def profitOf (share_amount initial_stake : Nat) : Nat :=
  if initial_stake < share_amount then share_amount - initial_stake else 0

/-- The transfers issued by a successful withdraw (source lines 221-243):
always one to the owner, plus one to the fee destination when fee > 0. -/
def withdrawTransfers (withdrawal_amount fee : Nat) : List Transfer :=
  ⟨TransferDest.toOwner, withdrawal_amount⟩ ::
    (if 0 < fee then [⟨TransferDest.toFeeDestination, fee⟩] else [])

/-- The withdraw instruction (source lines 190-251).  current_pool_balance
is the live vault balance read from the token account;
now is the clock timestamp.  The duration bound
stake_timestamp + MIN_STAKE_DURATION is unchecked i64 addition and the
product current_pool_balance * share_bps is unchecked u64 multiplication,
so both wrap. -/
def withdraw (pool : AgentPool) (position : StakePosition)
    (current_pool_balance : Nat) (now : Int) : Except Failure WithdrawResult :=
  if pool.emergency_mode = false ∧
      now < wrap64s (position.stake_timestamp + MIN_STAKE_DURATION) then
    Except.error (Failure.code ErrorCode.StakeDurationNotMet)
  else
    let share_amount := wrap64 (current_pool_balance * position.share_bps) / 10000
    if share_amount < DUST_THRESHOLD then Except.error (Failure.code ErrorCode.DustAmount)
    else
      let profit := profitOf share_amount position.initial_stake
      let fee := wrap64 (profit * UNSTAKE_FEE_BPS) / 10000
      let withdrawal_amount := sub64 share_amount fee
      if pool.total_shares_bps < position.share_bps then
        Except.error (Failure.code ErrorCode.MathOverflow)
      else if pool.total_staked < wrap64 (withdrawal_amount + fee) then
        Except.error (Failure.code ErrorCode.MathOverflow)
      else Except.ok
        { pool := { pool with
            total_shares_bps := pool.total_shares_bps - position.share_bps,
            total_staked := pool.total_staked - wrap64 (withdrawal_amount + fee) },
          share_amount := share_amount,
          profit := profit,
          fee := fee,
          withdrawal_amount := withdrawal_amount,
          transfers := withdrawTransfers withdrawal_amount fee }

/-- Pool states reachable from a freshly initialized pool through any
sequence of successful stake, execute_trade and withdraw instructions. -/
inductive Reachable : AgentPool → Prop
  | init (a v : Pubkey) (b : Nat) : Reachable (initialize_agent_pool a v b)
  | stake_step (p : AgentPool) (amount : Nat) (u k : Pubkey) (now : Int)
      (b : Nat) (r : StakeResult) :
      Reachable p → stake p amount u k now b = Except.ok r → Reachable r.pool
  | trade_step (p : AgentPool) (c : Pubkey) (ai mo : Nat) (r : TradeResult) :
      Reachable p → execute_trade p c ai mo = Except.ok r → Reachable r.pool
  | withdraw_step (p : AgentPool) (pos : StakePosition) (bal : Nat) (now : Int)
      (r : WithdrawResult) :
      Reachable p → withdraw p pos bal now = Except.ok r → Reachable r.pool

/-- A wrapped u64 value is below 2^64. -/
theorem wrap64_lt (x : Nat) : wrap64 x < U64_MOD := by
  simp only [wrap64, U64_MOD]; omega

/-- Wrapping is the identity below 2^64. -/
theorem wrap64_eq_of_lt {x : Nat} (h : x < U64_MOD) : wrap64 x = x :=
  Nat.mod_eq_of_lt h

/-- Wrapping u64 subtraction agrees with truncated subtraction when it
does not underflow. -/
theorem sub64_eq {a b : Nat} (hba : b ≤ a) (ha : a < U64_MOD) :
    sub64 a b = a - b := by
  simp only [sub64, U64_MOD] at *; omega

/-- Wrapping i64 addition is the identity inside the i64 range. -/
theorem wrap64s_eq {x : Int} (h0 : -I64_HALF ≤ x) (h1 : x < I64_HALF) :
    wrap64s x = x := by
  simp only [wrap64s, I64_HALF, I64_MOD] at *; omega

/-- A truncated u64 quotient by 10000 is at most (2^64 - 1) / 10000. -/
theorem wrap64_div_le (x : Nat) : wrap64 x / 10000 ≤ 1844674407370955 := by
  simp only [wrap64, U64_MOD]; omega

/-- The computed stake fee never exceeds the gross amount. -/
theorem stakeFeeOf_le (amount : Nat) : stakeFeeOf amount ≤ amount := by
  by_cases h : amount * STAKE_FEE_BPS < U64_MOD
  · simp only [stakeFeeOf, wrap64_eq_of_lt h]
    calc amount * STAKE_FEE_BPS / 10000 ≤ amount * 10000 / 10000 :=
          Nat.div_le_div_right (Nat.mul_le_mul_left _ (by norm_num [STAKE_FEE_BPS]))
      _ = amount := by omega
  · have h2 : U64_MOD ≤ amount * STAKE_FEE_BPS := not_lt.mp h
    have h3 : 61489146912365173 ≤ amount := by
      simp only [U64_MOD, STAKE_FEE_BPS] at h2; omega
    have h4 : stakeFeeOf amount ≤ 1844674407370955 := wrap64_div_le _
    omega

/-- When the u64 fee multiply does not overflow, the computed fee is the
exact mathematical fee. -/
theorem stakeFeeOf_eq {amount : Nat} (h : amount * STAKE_FEE_BPS < U64_MOD) :
    stakeFeeOf amount = amount * STAKE_FEE_BPS / 10000 := by
  simp only [stakeFeeOf, wrap64_eq_of_lt h]

/-- When the u64 fee multiply does not overflow, the computed net stake
amount is the exact amount minus fee. -/
theorem stakeAmountOf_eq {amount : Nat} (h : amount * STAKE_FEE_BPS < U64_MOD) :
    stakeAmountOf amount = amount - amount * STAKE_FEE_BPS / 10000 := by
  have hfee := stakeFeeOf_eq h
  have hle : amount * STAKE_FEE_BPS / 10000 ≤ amount := by
    simp only [STAKE_FEE_BPS]; omega
  have ha : amount < U64_MOD := by
    simp only [STAKE_FEE_BPS, U64_MOD] at h ⊢; omega
  rw [stakeAmountOf, hfee, sub64_eq hle ha]

/-- Inversion of a successful stake: every check it makes, and the shape
of the result. -/
theorem stake_ok_elim {pool : AgentPool} {amount : Nat} {u k : Pubkey}
    {now : Int} {b : Nat} {r : StakeResult}
    (h : stake pool amount u k now b = Except.ok r) :
    MIN_STAKE_SOL ≤ amount ∧ pool.paused = false ∧
    stakeShare pool (stakeAmountOf amount) = Except.ok r.share_bps ∧
    MIN_SHARE_BPS ≤ r.share_bps ∧
    wrap64 (pool.total_shares_bps + r.share_bps) ≤ 10000 ∧
    pool.total_staked + stakeAmountOf amount < U64_MOD ∧
    pool.total_shares_bps + r.share_bps < U64_MOD ∧
    r.fee = stakeFeeOf amount ∧
    r.stake_amount = stakeAmountOf amount ∧
    r.position = { owner := u, agent_pool := k,
                   initial_stake := stakeAmountOf amount, share_bps := r.share_bps,
                   stake_timestamp := now, bump := b } ∧
    r.pool = { pool with
               total_staked := pool.total_staked + stakeAmountOf amount,
               total_shares_bps := pool.total_shares_bps + r.share_bps } ∧
    r.transfers = [⟨TransferDest.toPoolVault, stakeAmountOf amount⟩,
                   ⟨TransferDest.toFeeDestination, stakeFeeOf amount⟩] := by
  simp only [stake] at h
  split at h
  · simp at h
  next h1 =>
    split at h
    · simp at h
    next h2 =>
      split at h
      · simp at h
      next sb heq =>
        split at h
        · simp at h
        next h3 =>
          split at h
          · simp at h
          next h4 =>
            split at h
            · simp at h
            next h5 =>
              split at h
              · simp at h
              next h6 =>
                simp only [Except.ok.injEq] at h
                subst h
                refine ⟨by omega, by simpa using h2, heq, ?_, ?_, ?_, ?_,
                  rfl, rfl, rfl, rfl, rfl⟩ <;> dsimp only <;> omega

/-- A successful execute_trade leaves the pool record unchanged. -/
theorem execute_trade_ok_pool {pool : AgentPool} {c : Pubkey} {ai mo : Nat}
    {r : TradeResult} (h : execute_trade pool c ai mo = Except.ok r) :
    r.pool = pool := by
  simp only [execute_trade] at h
  split at h
  · simp at h
  · split at h
    · split at h
      · simp at h
      · split at h
        · simp at h
        · simp only [Except.ok.injEq] at h
          subst h
          rfl
    · simp at h

/-- Inversion of a successful withdraw: every check it makes, and the
shape of the result. -/
theorem withdraw_ok_elim {pool : AgentPool} {pos : StakePosition}
    {bal : Nat} {now : Int} {r : WithdrawResult}
    (h : withdraw pool pos bal now = Except.ok r) :
    (pool.emergency_mode = true ∨
      wrap64s (pos.stake_timestamp + MIN_STAKE_DURATION) ≤ now) ∧
    r.share_amount = wrap64 (bal * pos.share_bps) / 10000 ∧
    DUST_THRESHOLD ≤ r.share_amount ∧
    r.profit = profitOf r.share_amount pos.initial_stake ∧
    r.fee = wrap64 (r.profit * UNSTAKE_FEE_BPS) / 10000 ∧
    r.withdrawal_amount = sub64 r.share_amount r.fee ∧
    pos.share_bps ≤ pool.total_shares_bps ∧
    wrap64 (r.withdrawal_amount + r.fee) ≤ pool.total_staked ∧
    r.pool = { pool with
               total_shares_bps := pool.total_shares_bps - pos.share_bps,
               total_staked := pool.total_staked - wrap64 (r.withdrawal_amount + r.fee) } ∧
    r.transfers = withdrawTransfers r.withdrawal_amount r.fee := by
  simp only [withdraw] at h
  split at h
  · simp at h
  next h0 =>
    split at h
    · simp at h
    next h1 =>
      split at h
      · simp at h
      next h2 =>
        split at h
        · simp at h
        next h3 =>
          simp only [Except.ok.injEq] at h
          subst h
          refine ⟨?_, rfl, ?_, rfl, rfl, rfl, ?_, ?_, rfl, rfl⟩
          · by_cases he : pool.emergency_mode = true
            · exact Or.inl he
            · right
              push_neg at h0
              exact h0 (by simpa using he)
          all_goals dsimp only
          all_goals omega

/-- The withdraw profit never exceeds the share amount. -/
theorem profitOf_le (s i : Nat) : profitOf s i ≤ s := by
  unfold profitOf; split <;> omega

/-- Arithmetic facts about a successful withdraw: the share amount fits
far below 2^64 (it is a u64 quotient by 10000), the unstake-fee multiply
therefore never wraps, the fee never exceeds the share amount, and
withdrawal_amount + fee adds back to exactly share_amount. -/
theorem withdraw_amounts {pool : AgentPool} {pos : StakePosition}
    {bal : Nat} {now : Int} {r : WithdrawResult}
    (h : withdraw pool pos bal now = Except.ok r) :
    r.share_amount ≤ 1844674407370955 ∧
    r.profit ≤ r.share_amount ∧
    r.fee = r.profit * UNSTAKE_FEE_BPS / 10000 ∧
    r.fee ≤ r.share_amount ∧
    r.withdrawal_amount = r.share_amount - r.fee ∧
    wrap64 (r.withdrawal_amount + r.fee) = r.share_amount := by
  obtain ⟨-, h2, -, h4, h5, h6, -, -, -, -⟩ := withdraw_ok_elim h
  have hsb : r.share_amount ≤ 1844674407370955 := by
    rw [h2]; exact wrap64_div_le _
  have hple : r.profit ≤ r.share_amount := by
    rw [h4]; exact profitOf_le _ _
  have hfw : wrap64 (r.profit * UNSTAKE_FEE_BPS) = r.profit * UNSTAKE_FEE_BPS := by
    apply wrap64_eq_of_lt
    simp only [UNSTAKE_FEE_BPS, U64_MOD]
    omega
  rw [hfw] at h5
  have hfle : r.fee ≤ r.share_amount := by
    simp only [UNSTAKE_FEE_BPS] at h5; omega
  have hwd : r.withdrawal_amount = r.share_amount - r.fee := by
    rw [h6]
    exact sub64_eq hfle (by simp only [U64_MOD]; omega)
  refine ⟨hsb, hple, h5, hfle, hwd, ?_⟩
  have hsum : r.withdrawal_amount + r.fee = r.share_amount := by omega
  rw [hsum]
  exact wrap64_eq_of_lt (by simp only [U64_MOD]; omega)

/-- C9: a successful initialize creates the pool with total_staked = 0,
total_shares_bps = 0, paused = false and emergency_mode = false, and with
agent and vault the given identities (emergency_mode is false because the
handler leaves the zero-initialized field untouched). -/
theorem initialize_pool_fields (a v : Pubkey) (b : Nat) :
    (initialize_agent_pool a v b).total_staked = 0 ∧
    (initialize_agent_pool a v b).total_shares_bps = 0 ∧
    (initialize_agent_pool a v b).paused = false ∧
    (initialize_agent_pool a v b).emergency_mode = false ∧
    (initialize_agent_pool a v b).agent = a ∧
    (initialize_agent_pool a v b).vault = v :=
  ⟨rfl, rfl, rfl, rfl, rfl, rfl⟩

/-- C10: execute_trade divides by pool.total_staked with no zero check:
every call by the pool's agent on an unpaused pool whose total_staked is
zero reaches the division-by-zero abort, which is not one of the
enumerated ErrorCode failures; and a pool fresh from initialize has
total_staked = 0. -/
theorem execute_trade_division_by_zero :
    (∀ (pool : AgentPool) (c : Pubkey) (ai mo : Nat),
      pool.paused = false → pool.agent = c → pool.total_staked = 0 →
      execute_trade pool c ai mo = Except.error Failure.divisionByZero) ∧
    (∀ (a v : Pubkey) (b : Nat), (initialize_agent_pool a v b).total_staked = 0) := by
  constructor
  · intro pool c ai mo hp ha hz
    simp [execute_trade, hp, ha, hz]
  · intro a v b
    rfl

/-- Witness for C10 at a freshly initialized pool. -/
theorem execute_trade_division_by_zero_witness :
    execute_trade (initialize_agent_pool 5 6 7) 5 123 1 =
      Except.error Failure.divisionByZero :=
  execute_trade_division_by_zero.1 (initialize_agent_pool 5 6 7) 5 123 1 rfl rfl rfl

/-- C3 (code bug): the trade-size guard computes the exact u128 quotient
floor(amount_in * 10000 / total_staked) but then truncates it to u16
(mod 65536) before comparing with MAX_TRADE_SIZE_BPS, so a trade of
13e9 against a pool of 1.94e9 (670.10 percent of the pool, true
trade_size_bps 67010 > 2000) wraps to 1474, passes the guard, and is
delegated instead of failing TradeSizeTooLarge. -/
theorem trade_size_guard_truncation_bug :
    13000000000 * 10000 / 1940000000 = 67010 ∧
    MAX_TRADE_SIZE_BPS < 67010 ∧
    67010 % U16_MOD = 1474 ∧
    execute_trade
      { agent := 7, total_staked := 1940000000, fee_destination := 0, vault := 0,
        paused := false, total_shares_bps := 10000, bump := 0,
        emergency_mode := false } 7 13000000000 1 =
      Except.ok { pool := { agent := 7, total_staked := 1940000000, fee_destination := 0,
                            vault := 0, paused := false, total_shares_bps := 10000,
                            bump := 0, emergency_mode := false },
                  amount_in := 13000000000, min_amount_out := 1 } :=
  ⟨by decide, by decide, by decide, rfl⟩

/-- C2: every pool state reachable from initialize through successful
stake, execute_trade and withdraw keeps 0 ≤ total_shares_bps ≤ 10000;
initialize starts it at 0, a successful stake adds a share_bps whose
checked sum stays ≤ 10000, execute_trade never changes it, and a
successful withdraw subtracts position.share_bps, which never exceeds the
current value. -/
theorem total_shares_bps_invariant :
    (∀ p : AgentPool, Reachable p →
      0 ≤ p.total_shares_bps ∧ p.total_shares_bps ≤ 10000) ∧
    (∀ (a v : Pubkey) (b : Nat), (initialize_agent_pool a v b).total_shares_bps = 0) ∧
    (∀ (p : AgentPool) (amount : Nat) (u k : Pubkey) (now : Int) (b : Nat)
      (r : StakeResult), stake p amount u k now b = Except.ok r →
      p.total_shares_bps + r.share_bps ≤ 10000 ∧
      r.pool.total_shares_bps = p.total_shares_bps + r.share_bps) ∧
    (∀ (p : AgentPool) (c : Pubkey) (ai mo : Nat) (r : TradeResult),
      execute_trade p c ai mo = Except.ok r →
      r.pool.total_shares_bps = p.total_shares_bps) ∧
    (∀ (p : AgentPool) (pos : StakePosition) (bal : Nat) (now : Int)
      (r : WithdrawResult), withdraw p pos bal now = Except.ok r →
      pos.share_bps ≤ p.total_shares_bps ∧
      r.pool.total_shares_bps = p.total_shares_bps - pos.share_bps) := by
  have hstake : ∀ (p : AgentPool) (amount : Nat) (u k : Pubkey) (now : Int) (b : Nat)
      (r : StakeResult), stake p amount u k now b = Except.ok r →
      p.total_shares_bps + r.share_bps ≤ 10000 ∧
      r.pool.total_shares_bps = p.total_shares_bps + r.share_bps := by
    intro p amount u k now b r h
    obtain ⟨-, -, -, -, h5, -, h7, -, -, -, h11, -⟩ := stake_ok_elim h
    rw [wrap64_eq_of_lt h7] at h5
    exact ⟨h5, by rw [h11]⟩
  have hwd : ∀ (p : AgentPool) (pos : StakePosition) (bal : Nat) (now : Int)
      (r : WithdrawResult), withdraw p pos bal now = Except.ok r →
      pos.share_bps ≤ p.total_shares_bps ∧
      r.pool.total_shares_bps = p.total_shares_bps - pos.share_bps := by
    intro p pos bal now r h
    obtain ⟨-, -, -, -, -, -, h7, -, h9, -⟩ := withdraw_ok_elim h
    exact ⟨h7, by rw [h9]⟩
  refine ⟨?_, fun a v b => rfl, hstake,
    fun p c ai mo r h => by rw [execute_trade_ok_pool h], hwd⟩
  intro p hp
  induction hp with
  | init a v b => exact ⟨Nat.zero_le _, by norm_num [initialize_agent_pool, zeroedAgentPool]⟩
  | stake_step p amount u k now b r hre hok ih =>
    obtain ⟨h1, h2⟩ := hstake p amount u k now b r hok
    exact ⟨Nat.zero_le _, by omega⟩
  | trade_step p c ai mo r hre hok ih =>
    rw [execute_trade_ok_pool hok]
    exact ih
  | withdraw_step p pos bal now r hre hok ih =>
    obtain ⟨h1, h2⟩ := hwd p pos bal now r hok
    exact ⟨Nat.zero_le _, by omega⟩

/-- Witness for C2 at the freshly initialized pool. -/
theorem total_shares_bps_invariant_witness :
    0 ≤ (initialize_agent_pool 0 0 0).total_shares_bps ∧
    (initialize_agent_pool 0 0 0).total_shares_bps ≤ 10000 :=
  total_shares_bps_invariant.1 (initialize_agent_pool 0 0 0) (Reachable.init 0 0 0)

/-- Counterexample to C1 as stated: the fee multiply amount * 300 is
unchecked u64 arithmetic, so a first stake of 2^62 into a fresh pool
succeeds with fee 0 (2^62 * 300 is an exact multiple of 2^64), not the
claimed floor(2^62 * 300 / 10000) = 138350580552821637. -/
theorem stake_fee_width_cex :
    stake (initialize_agent_pool 0 0 0) 4611686018427387904 0 0 0 0 =
      Except.ok { pool := { agent := 0, total_staked := 4611686018427387904,
                            fee_destination := 0, vault := 0, paused := false,
                            total_shares_bps := 10000, bump := 0,
                            emergency_mode := false },
                  position := { owner := 0, agent_pool := 0,
                                initial_stake := 4611686018427387904,
                                share_bps := 10000, stake_timestamp := 0, bump := 0 },
                  fee := 0, stake_amount := 4611686018427387904, share_bps := 10000,
                  transfers := [⟨TransferDest.toPoolVault, 4611686018427387904⟩,
                                ⟨TransferDest.toFeeDestination, 0⟩] } ∧
    4611686018427387904 * STAKE_FEE_BPS / 10000 = 138350580552821637 ∧
    (0 : Nat) ≠ 138350580552821637 :=
  ⟨rfl, by decide, by decide⟩

/-- C1 (amended): for every successful stake whose u64 intermediates do
not overflow — amount * 300 < 2^64 for the fee multiply and
total_staked + stake_amount < 2^64 for the share denominator (both are
unchecked u64 operations in the source and wrap otherwise) — the fee is
floor(amount * 300 / 10000), stake_amount is amount - fee, and share_bps
is 10000 on an empty pool and
floor(stake_amount * 10000 / (total_staked + stake_amount)) otherwise
(the u128 multiply of the numerator is genuinely wide enough); and the
concrete first stake of 2,000,000,000 into a fresh pool yields fee
60,000,000, stake_amount 1,940,000,000, share_bps 10000, and a pool with
total_staked 1,940,000,000 and total_shares_bps 10000. -/
theorem stake_fee_and_share_formulas :
    (∀ (pool : AgentPool) (amount : Nat) (u k : Pubkey) (now : Int) (b : Nat)
      (r : StakeResult), stake pool amount u k now b = Except.ok r →
      amount * STAKE_FEE_BPS < U64_MOD →
      pool.total_staked + (amount - amount * STAKE_FEE_BPS / 10000) < U64_MOD →
      r.fee = amount * STAKE_FEE_BPS / 10000 ∧
      r.stake_amount = amount - r.fee ∧
      r.share_bps = (if pool.total_staked = 0 then 10000
        else r.stake_amount * 10000 / (pool.total_staked + r.stake_amount))) ∧
    (∀ (a v : Pubkey) (pb : Nat) (u k : Pubkey) (now : Int) (b : Nat),
      stake (initialize_agent_pool a v pb) 2000000000 u k now b =
        Except.ok { pool := { agent := a, total_staked := 1940000000,
                              fee_destination := 0, vault := v, paused := false,
                              total_shares_bps := 10000, bump := pb,
                              emergency_mode := false },
                    position := { owner := u, agent_pool := k,
                                  initial_stake := 1940000000, share_bps := 10000,
                                  stake_timestamp := now, bump := b },
                    fee := 60000000, stake_amount := 1940000000, share_bps := 10000,
                    transfers := [⟨TransferDest.toPoolVault, 1940000000⟩,
                                  ⟨TransferDest.toFeeDestination, 60000000⟩] }) := by
  constructor
  · intro pool amount u k now b r h hfee hsum
    obtain ⟨-, -, h3, -, -, -, -, h8, h9, -, -, -⟩ := stake_ok_elim h
    have hfeeEq : r.fee = amount * STAKE_FEE_BPS / 10000 := by
      rw [h8, stakeFeeOf_eq hfee]
    have hsa : stakeAmountOf amount = amount - amount * STAKE_FEE_BPS / 10000 :=
      stakeAmountOf_eq hfee
    have hamtEq : r.stake_amount = amount - amount * STAKE_FEE_BPS / 10000 := by
      rw [h9, hsa]
    refine ⟨hfeeEq, by rw [hamtEq, hfeeEq], ?_⟩
    rw [hamtEq]
    rw [hsa] at h3
    unfold stakeShare at h3
    split at h3
    next hT =>
      simp only [Except.ok.injEq] at h3
      rw [if_pos hT, ← h3]
    next hT =>
      have hw : wrap64 (pool.total_staked + (amount - amount * STAKE_FEE_BPS / 10000)) =
          pool.total_staked + (amount - amount * STAKE_FEE_BPS / 10000) :=
        wrap64_eq_of_lt hsum
      rw [hw] at h3
      rw [if_neg (show ¬ (pool.total_staked +
        (amount - amount * STAKE_FEE_BPS / 10000) = 0) by omega)] at h3
      simp only [Except.ok.injEq] at h3
      have hpos : 0 < pool.total_staked + (amount - amount * STAKE_FEE_BPS / 10000) := by
        omega
      have hq : (amount - amount * STAKE_FEE_BPS / 10000) * 10000 /
          (pool.total_staked + (amount - amount * STAKE_FEE_BPS / 10000)) ≤ 10000 := by
        calc (amount - amount * STAKE_FEE_BPS / 10000) * 10000 /
            (pool.total_staked + (amount - amount * STAKE_FEE_BPS / 10000)) ≤
            (pool.total_staked + (amount - amount * STAKE_FEE_BPS / 10000)) * 10000 /
            (pool.total_staked + (amount - amount * STAKE_FEE_BPS / 10000)) :=
              Nat.div_le_div_right (by omega)
          _ = 10000 := Nat.mul_div_cancel_left 10000 hpos
      rw [if_neg hT, ← h3]
      exact wrap64_eq_of_lt (by simp only [U64_MOD]; omega)
  · intro a v pb u k now b
    simp only [stake, stakeFeeOf, stakeAmountOf, stakeShare, initialize_agent_pool,
      zeroedAgentPool, wrap64, sub64, U64_MOD, MIN_STAKE_SOL, STAKE_FEE_BPS, MIN_SHARE_BPS]
    norm_num

/-- Witness for C1 at the concrete first stake of 2e9 into a fresh pool. -/
theorem stake_fee_and_share_formulas_witness :
    (2000000000 : Nat) * STAKE_FEE_BPS < U64_MOD ∧
    (2000000000 : Nat) * STAKE_FEE_BPS / 10000 = 60000000 :=
  ⟨by decide, by
    have h := stake_fee_and_share_formulas.1 (initialize_agent_pool 0 0 0)
      2000000000 0 0 0 0 _ (stake_fee_and_share_formulas.2 0 0 0 0 0 0 0)
      (by decide) (by decide)
    exact h.1.symm⟩

/-- Counterexample to C4 as stated: the InvalidShare guard adds
total_shares_bps + share_bps in unchecked u64 arithmetic.  With
total_staked 18444899399302180662 and amount 1901726193165932 the wrapped
share denominator is 1 and the computed share_bps is 18446744073709550000,
so the guard sum wraps to 8384 ≤ 10000 and passes although the true sum
exceeds 10000; the operation then fails with MathOverflow at the checked
total_staked update, not with InvalidShare. -/
theorem invalid_share_overflow_cex :
    stakeAmountOf 1901726193165932 = 1844674407370955 ∧
    stakeShare { agent := 1, total_staked := 18444899399302180662,
                 fee_destination := 0, vault := 2, paused := false,
                 total_shares_bps := 10000, bump := 0, emergency_mode := false }
        1844674407370955 = Except.ok 18446744073709550000 ∧
    MIN_SHARE_BPS ≤ 18446744073709550000 ∧
    10000 < 10000 + 18446744073709550000 ∧
    stake { agent := 1, total_staked := 18444899399302180662,
            fee_destination := 0, vault := 2, paused := false,
            total_shares_bps := 10000, bump := 0, emergency_mode := false }
        1901726193165932 0 0 0 0 =
      Except.error (Failure.code ErrorCode.MathOverflow) :=
  ⟨rfl, rfl, by decide, by decide, rfl⟩

set_option maxRecDepth 2048 in
/-- C4 (amended): a stake of at least MIN_STAKE_SOL on an unpaused pool
whose computed share_bps is at least MIN_SHARE_BPS but whose sum
total_shares_bps + share_bps exceeds 10000 fails with InvalidShare —
provided that sum stays below 2^64 (it is an unchecked u64 addition in
the source and wraps otherwise); the error is raised before any transfer,
so state is unchanged.  In particular a second stake of 1,000,000,000
against the scenario-1 pool computes share_bps 3333 and fails this way. -/
theorem stake_invalid_share_rejection :
    (∀ (pool : AgentPool) (amount : Nat) (u k : Pubkey) (now : Int) (b : Nat)
      (share : Nat),
      MIN_STAKE_SOL ≤ amount → pool.paused = false →
      stakeShare pool (stakeAmountOf amount) = Except.ok share →
      MIN_SHARE_BPS ≤ share →
      10000 < pool.total_shares_bps + share →
      pool.total_shares_bps + share < U64_MOD →
      stake pool amount u k now b = Except.error (Failure.code ErrorCode.InvalidShare)) ∧
    (∀ (a v : Pubkey) (pb : Nat) (u k : Pubkey) (now : Int) (b : Nat),
      stakeShare { agent := a, total_staked := 1940000000, fee_destination := 0,
                   vault := v, paused := false, total_shares_bps := 10000,
                   bump := pb, emergency_mode := false } (stakeAmountOf 1000000000) =
        Except.ok 3333 ∧
      stake { agent := a, total_staked := 1940000000, fee_destination := 0,
              vault := v, paused := false, total_shares_bps := 10000,
              bump := pb, emergency_mode := false } 1000000000 u k now b =
        Except.error (Failure.code ErrorCode.InvalidShare)) := by
  have main : ∀ (pool : AgentPool) (amount : Nat) (u k : Pubkey) (now : Int) (b : Nat)
      (share : Nat),
      MIN_STAKE_SOL ≤ amount → pool.paused = false →
      stakeShare pool (stakeAmountOf amount) = Except.ok share →
      MIN_SHARE_BPS ≤ share →
      10000 < pool.total_shares_bps + share →
      pool.total_shares_bps + share < U64_MOD →
      stake pool amount u k now b = Except.error (Failure.code ErrorCode.InvalidShare) := by
    intro pool amount u k now b share hmin hpause hsh h10 hgt hlt
    simp only [stake, hsh]
    rw [if_neg (show ¬ amount < MIN_STAKE_SOL by omega),
      if_neg (show ¬ (pool.paused = true) by simp [hpause]),
      if_neg (show ¬ share < MIN_SHARE_BPS by omega),
      wrap64_eq_of_lt hlt, if_pos hgt]
  refine ⟨main, ?_⟩
  intro a v pb u k now b
  have hsh : stakeShare { agent := a, total_staked := 1940000000, fee_destination := 0,
                          vault := v, paused := false, total_shares_bps := 10000,
                          bump := pb, emergency_mode := false } (stakeAmountOf 1000000000) =
      Except.ok 3333 := by
    simp only [stakeShare, stakeAmountOf, stakeFeeOf, wrap64, sub64, U64_MOD,
      STAKE_FEE_BPS]
    norm_num
  exact ⟨hsh, main _ 1000000000 u k now b 3333 (by decide) rfl hsh (by decide)
    (by norm_num) (by norm_num [U64_MOD])⟩

/-- Witness for C4 at the concrete scenario-2 second stake. -/
theorem stake_invalid_share_rejection_witness :
    stake { agent := 0, total_staked := 1940000000, fee_destination := 0,
            vault := 0, paused := false, total_shares_bps := 10000,
            bump := 0, emergency_mode := false } 1000000000 0 0 0 0 =
      Except.error (Failure.code ErrorCode.InvalidShare) :=
  stake_invalid_share_rejection.1
    { agent := 0, total_staked := 1940000000, fee_destination := 0,
      vault := 0, paused := false, total_shares_bps := 10000,
      bump := 0, emergency_mode := false } 1000000000 0 0 0 0 3333
    (by decide) rfl rfl (by decide) (by decide) (by decide)

/-- Counterexample to C5 as stated: the product
current_pool_balance * share_bps is unchecked u64 multiplication.  With
balance 2^60 + 10^6 and share_bps 10000 the product wraps to 10^10, the
code computes share_amount 10^6 and decrements total_staked by 10^6,
while the claimed share_amount floor(balance * share_bps / 10000) is the
full balance 1152921504607846976. -/
theorem withdraw_share_amount_wrap_cex :
    withdraw { agent := 0, total_staked := 1940000000, fee_destination := 0,
               vault := 0, paused := false, total_shares_bps := 10000,
               bump := 0, emergency_mode := true }
      { owner := 0, agent_pool := 0, initial_stake := 1940000000,
        share_bps := 10000, stake_timestamp := 0, bump := 0 }
      1152921504607846976 0 =
      Except.ok { pool := { agent := 0, total_staked := 1939000000,
                            fee_destination := 0, vault := 0, paused := false,
                            total_shares_bps := 0, bump := 0,
                            emergency_mode := true },
                  share_amount := 1000000, profit := 0, fee := 0,
                  withdrawal_amount := 1000000,
                  transfers := [⟨TransferDest.toOwner, 1000000⟩] } ∧
    1152921504607846976 * 10000 / 10000 = 1152921504607846976 ∧
    1940000000 - 1939000000 = 1000000 ∧
    (1000000 : Nat) ≠ 1152921504607846976 :=
  ⟨rfl, by decide, by decide, by decide⟩

/-- C5 (amended): for every successful withdraw, with share_amount the
value the code computes — floor of the u64-wrapped product
current_pool_balance * share_bps, divided by 10000 — total_shares_bps
decreases by exactly position.share_bps, total_staked decreases by
exactly withdrawal_amount + fee, which equals this computed share_amount
(not a re-read of the vault's post-transfer balance), and every other
pool field is unchanged; the position itself is closed (the result
carries no position). -/
theorem withdraw_state_update :
    ∀ (pool : AgentPool) (pos : StakePosition) (bal : Nat) (now : Int)
      (r : WithdrawResult), withdraw pool pos bal now = Except.ok r →
      r.share_amount = wrap64 (bal * pos.share_bps) / 10000 ∧
      r.withdrawal_amount + r.fee = r.share_amount ∧
      pos.share_bps ≤ pool.total_shares_bps ∧
      r.pool.total_shares_bps = pool.total_shares_bps - pos.share_bps ∧
      r.share_amount ≤ pool.total_staked ∧
      r.pool.total_staked = pool.total_staked - r.share_amount ∧
      r.pool.agent = pool.agent ∧
      r.pool.fee_destination = pool.fee_destination ∧
      r.pool.vault = pool.vault ∧
      r.pool.paused = pool.paused ∧
      r.pool.bump = pool.bump ∧
      r.pool.emergency_mode = pool.emergency_mode := by
  intro pool pos bal now r h
  obtain ⟨-, h2, -, -, -, -, h7, h8, h9, -⟩ := withdraw_ok_elim h
  obtain ⟨-, -, -, hfle, hwd, hww⟩ := withdraw_amounts h
  have hsum : r.withdrawal_amount + r.fee = r.share_amount := by omega
  have hle : r.share_amount ≤ pool.total_staked := by
    rw [← hww]; exact h8
  refine ⟨h2, hsum, h7, by rw [h9], hle, ?_, by rw [h9], by rw [h9], by rw [h9],
    by rw [h9], by rw [h9], by rw [h9]⟩
  rw [h9]
  dsimp only
  rw [hww]

/-- Witness for C5 at a concrete full-value withdraw. -/
theorem withdraw_state_update_witness :
    (1940000000 : Nat) ≤ 1940000000 ∧ (0 : Nat) = 1940000000 - 1940000000 := by
  have h := withdraw_state_update
    { agent := 0, total_staked := 1940000000, fee_destination := 0,
      vault := 0, paused := false, total_shares_bps := 10000,
      bump := 0, emergency_mode := true }
    { owner := 0, agent_pool := 0, initial_stake := 1940000000,
      share_bps := 10000, stake_timestamp := 0, bump := 0 } 1940000000 0
    { pool := { agent := 0, total_staked := 0, fee_destination := 0,
                vault := 0, paused := false, total_shares_bps := 0,
                bump := 0, emergency_mode := true },
      share_amount := 1940000000, profit := 0, fee := 0,
      withdrawal_amount := 1940000000,
      transfers := [⟨TransferDest.toOwner, 1940000000⟩] } rfl
  exact ⟨h.2.2.2.2.1, h.2.2.2.2.2.1⟩

/-- C6: for every successful withdraw, profit is
max(0, share_amount - initial_stake), fee is
floor(profit * 1000 / 10000) (the fee multiply cannot wrap because
share_amount is a u64 quotient by 10000), withdrawal_amount is
share_amount - fee; and when share_amount ≤ initial_stake the fee is 0,
withdrawal_amount equals share_amount, and exactly one transfer — to the
owner, with no fee transfer — is issued. -/
theorem withdraw_profit_fee_spec :
    ∀ (pool : AgentPool) (pos : StakePosition) (bal : Nat) (now : Int)
      (r : WithdrawResult), withdraw pool pos bal now = Except.ok r →
      (r.profit : Int) = max 0 ((r.share_amount : Int) - (pos.initial_stake : Int)) ∧
      r.fee = r.profit * UNSTAKE_FEE_BPS / 10000 ∧
      r.withdrawal_amount = r.share_amount - r.fee ∧
      (r.share_amount ≤ pos.initial_stake →
        r.fee = 0 ∧ r.withdrawal_amount = r.share_amount ∧
        r.transfers = [⟨TransferDest.toOwner, r.share_amount⟩]) := by
  intro pool pos bal now r h
  obtain ⟨-, -, -, h4, -, -, -, -, -, h10⟩ := withdraw_ok_elim h
  obtain ⟨-, -, hfee, hfle, hwd, -⟩ := withdraw_amounts h
  have hmax : (r.profit : Int) =
      max 0 ((r.share_amount : Int) - (pos.initial_stake : Int)) := by
    rw [h4]
    unfold profitOf
    split
    next hc =>
      have hmr : max (0 : Int) ((r.share_amount : Int) - (pos.initial_stake : Int)) =
          (r.share_amount : Int) - (pos.initial_stake : Int) :=
        max_eq_right (by omega)
      rw [hmr]
      omega
    next hc =>
      have hml : max (0 : Int) ((r.share_amount : Int) - (pos.initial_stake : Int)) =
          (0 : Int) :=
        max_eq_left (by omega)
      rw [hml]
      omega
  refine ⟨hmax, hfee, hwd, ?_⟩
  intro hle
  have hp0 : r.profit = 0 := by
    rw [h4]; unfold profitOf; rw [if_neg (by omega)]
  have hf0 : r.fee = 0 := by
    simp [hfee, hp0]
  refine ⟨hf0, by omega, ?_⟩
  have hwa : r.withdrawal_amount = r.share_amount := by omega
  rw [h10, hf0, hwa, withdrawTransfers]
  norm_num

/-- Witness for C6 at a concrete profitable withdraw. -/
theorem withdraw_profit_fee_spec_witness :
    ((500000000 : Nat) : Int) = max 0 ((1500000000 : Int) - (1000000000 : Int)) ∧
    (50000000 : Nat) = 500000000 * UNSTAKE_FEE_BPS / 10000 := by
  have h := withdraw_profit_fee_spec
    { agent := 0, total_staked := 2000000000, fee_destination := 0,
      vault := 0, paused := false, total_shares_bps := 10000,
      bump := 0, emergency_mode := true }
    { owner := 0, agent_pool := 0, initial_stake := 1000000000,
      share_bps := 10000, stake_timestamp := 0, bump := 0 } 1500000000 0
    { pool := { agent := 0, total_staked := 500000000, fee_destination := 0,
                vault := 0, paused := false, total_shares_bps := 0,
                bump := 0, emergency_mode := true },
      share_amount := 1500000000, profit := 500000000, fee := 50000000,
      withdrawal_amount := 1450000000,
      transfers := [⟨TransferDest.toOwner, 1450000000⟩,
                    ⟨TransferDest.toFeeDestination, 50000000⟩] } rfl
  exact ⟨h.1, h.2.1⟩

/-- Counterexample to C7 as stated: the bound
stake_timestamp + MIN_STAKE_DURATION is unchecked i64 addition.  At
stake_timestamp = 2^63 - 1 the sum wraps to a negative value, so with
emergency_mode = false and now = 0 (which is below the mathematical
stake_timestamp + 3600) the duration check passes and the call proceeds
to the dust check, failing with DustAmount instead of
StakeDurationNotMet. -/
theorem withdraw_duration_wrap_cex :
    ({ agent := 0, total_staked := 1940000000, fee_destination := 0,
       vault := 0, paused := false, total_shares_bps := 10000,
       bump := 0, emergency_mode := false } : AgentPool).emergency_mode = false ∧
    (0 : Int) < 9223372036854775807 + MIN_STAKE_DURATION ∧
    withdraw { agent := 0, total_staked := 1940000000, fee_destination := 0,
               vault := 0, paused := false, total_shares_bps := 10000,
               bump := 0, emergency_mode := false }
      { owner := 0, agent_pool := 0, initial_stake := 1940000000,
        share_bps := 10000, stake_timestamp := 9223372036854775807, bump := 0 }
      0 0 =
      Except.error (Failure.code ErrorCode.DustAmount) ∧
    Failure.code ErrorCode.DustAmount ≠ Failure.code ErrorCode.StakeDurationNotMet :=
  ⟨rfl, by decide, rfl, by decide⟩

/-- C7 (amended): with emergency_mode = false and now below
stake_timestamp + 3600, withdraw fails with StakeDurationNotMet before
any computation or transfer — provided stake_timestamp + 3600 stays
inside the i64 range (the addition is unchecked i64 arithmetic in the
source and wraps otherwise); and with emergency_mode = true no withdraw
call ever fails with StakeDurationNotMet. -/
theorem withdraw_min_duration_guard :
    (∀ (pool : AgentPool) (pos : StakePosition) (bal : Nat) (now : Int),
      pool.emergency_mode = false →
      -I64_HALF ≤ pos.stake_timestamp →
      pos.stake_timestamp + MIN_STAKE_DURATION < I64_HALF →
      now < pos.stake_timestamp + MIN_STAKE_DURATION →
      withdraw pool pos bal now =
        Except.error (Failure.code ErrorCode.StakeDurationNotMet)) ∧
    (∀ (pool : AgentPool) (pos : StakePosition) (bal : Nat) (now : Int),
      pool.emergency_mode = true →
      withdraw pool pos bal now ≠
        Except.error (Failure.code ErrorCode.StakeDurationNotMet)) := by
  constructor
  · intro pool pos bal now hem h0 h1 hnow
    have hw : wrap64s (pos.stake_timestamp + MIN_STAKE_DURATION) =
        pos.stake_timestamp + MIN_STAKE_DURATION :=
      wrap64s_eq (by simp only [MIN_STAKE_DURATION] at *; omega) h1
    simp only [withdraw]
    rw [if_pos ⟨hem, by rw [hw]; exact hnow⟩]
  · intro pool pos bal now hem
    simp only [withdraw, hem]
    rw [if_neg (by simp)]
    split
    · simp
    · split
      · simp
      · split
        · simp
        · simp

/-- Witness for C7 at a too-early withdraw. -/
theorem withdraw_min_duration_guard_witness :
    withdraw { agent := 0, total_staked := 0, fee_destination := 0,
               vault := 0, paused := false, total_shares_bps := 0,
               bump := 0, emergency_mode := false }
      { owner := 0, agent_pool := 0, initial_stake := 0, share_bps := 0,
        stake_timestamp := 0, bump := 0 } 0 0 =
      Except.error (Failure.code ErrorCode.StakeDurationNotMet) :=
  withdraw_min_duration_guard.1 _ _ 0 0 rfl (by decide) (by decide) (by decide)

/-- C8: every withdraw call that passes the duration check and computes
share_amount < DUST_THRESHOLD fails with DustAmount; the error is raised
before any transfer or state mutation, so the position remains open. -/
theorem withdraw_dust_guard :
    ∀ (pool : AgentPool) (pos : StakePosition) (bal : Nat) (now : Int),
      (pool.emergency_mode = false →
        wrap64s (pos.stake_timestamp + MIN_STAKE_DURATION) ≤ now) →
      wrap64 (bal * pos.share_bps) / 10000 < DUST_THRESHOLD →
      withdraw pool pos bal now = Except.error (Failure.code ErrorCode.DustAmount) := by
  intro pool pos bal now hdur hdust
  simp only [withdraw]
  rw [if_neg (by
    rintro ⟨he, hlt⟩
    have := hdur he
    omega)]
  rw [if_pos hdust]

/-- Witness for C8 at a zero-balance withdraw in emergency mode. -/
theorem withdraw_dust_guard_witness :
    withdraw { agent := 0, total_staked := 0, fee_destination := 0,
               vault := 0, paused := false, total_shares_bps := 0,
               bump := 0, emergency_mode := true }
      { owner := 0, agent_pool := 0, initial_stake := 0, share_bps := 0,
        stake_timestamp := 0, bump := 0 } 0 0 =
      Except.error (Failure.code ErrorCode.DustAmount) :=
  withdraw_dust_guard _ _ 0 0 (by intro h; simp at h) (by decide)

end UnifiedStakeTrading
